import Mathlib

namespace TStateMachine

/-- JSON-like property values: scalars plus nested objects. -/
inductive Value where
  | str : String → Value
  | bool : Bool → Value
  | int : Int → Value
  | obj : List (String × Value) → Value

/-- A property bag: ordered association list, as a JS object. -/
abbrev Props := List (String × Value)

/-- Association-list lookup by key (JS property read). -/
def alookup {α : Type} (k : String) : List (String × α) → Option α
  | [] => none
  | (k0, v) :: rest => if k0 = k then some v else alookup k rest

/-- Drop every binding of key k (JS objects hold each key once). -/
def removeKey {α : Type} (k : String) : List (String × α) → List (String × α)
  | [] => []
  | (k0, v) :: rest => if k0 = k then removeKey k rest else (k0, v) :: removeKey k rest

mutual
/-- Modelled from the spec: the deep-merge of two values performed by
`src/utils/merge.ts`, which is imported by `StateMachine.ts` but absent from
the provided sources.  Two objects deep-merge; any other source value
replaces the target value. -/
def mergeVal : Value → Value → Value
  | Value.obj t, Value.obj s => Value.obj (mergeProps t s)
  | _, s => s

/-- Modelled from the spec: `merge(target, source)` of the missing
`src/utils/merge.ts`.  Only keys present in the source overwrite; nested
objects deep-merge; keys new to the target are appended, giving JS insertion
order (existing keys keep their position). -/
def mergeProps : List (String × Value) → List (String × Value) → List (String × Value)
  | [], s => s
  | (k, v) :: rest, s =>
    match alookup k s with
    | none => (k, v) :: mergeProps rest s
    | some sv => (k, mergeVal v sv) :: mergeProps rest (removeKey k s)
end

mutual
def decEqVal : (a b : Value) → Decidable (a = b)
  | Value.str a, Value.str b =>
    if h : a = b then isTrue (by rw [h]) else isFalse (by simp [h])
  | Value.bool a, Value.bool b =>
    if h : a = b then isTrue (by rw [h]) else isFalse (by simp [h])
  | Value.int a, Value.int b =>
    if h : a = b then isTrue (by rw [h]) else isFalse (by simp [h])
  | Value.obj a, Value.obj b =>
    match decEqProps a b with
    | isTrue h => isTrue (by rw [h])
    | isFalse h => isFalse (by simp [h])
  | Value.str _, Value.bool _ => isFalse (fun h => Value.noConfusion h)
  | Value.str _, Value.int _ => isFalse (fun h => Value.noConfusion h)
  | Value.str _, Value.obj _ => isFalse (fun h => Value.noConfusion h)
  | Value.bool _, Value.str _ => isFalse (fun h => Value.noConfusion h)
  | Value.bool _, Value.int _ => isFalse (fun h => Value.noConfusion h)
  | Value.bool _, Value.obj _ => isFalse (fun h => Value.noConfusion h)
  | Value.int _, Value.str _ => isFalse (fun h => Value.noConfusion h)
  | Value.int _, Value.bool _ => isFalse (fun h => Value.noConfusion h)
  | Value.int _, Value.obj _ => isFalse (fun h => Value.noConfusion h)
  | Value.obj _, Value.str _ => isFalse (fun h => Value.noConfusion h)
  | Value.obj _, Value.bool _ => isFalse (fun h => Value.noConfusion h)
  | Value.obj _, Value.int _ => isFalse (fun h => Value.noConfusion h)

def decEqProps : (a b : List (String × Value)) → Decidable (a = b)
  | [], [] => isTrue rfl
  | [], _ :: _ => isFalse (fun h => List.noConfusion h)
  | _ :: _, [] => isFalse (fun h => List.noConfusion h)
  | (k1, v1) :: r1, (k2, v2) :: r2 =>
    if hk : k1 = k2 then
      match decEqVal v1 v2 with
      | isTrue hv =>
        match decEqProps r1 r2 with
        | isTrue hr => isTrue (by rw [hk, hv, hr])
        | isFalse hr => isFalse (by simp [hr])
      | isFalse hv => isFalse (by simp [hv])
    else isFalse (by simp [hk])
end

instance : DecidableEq Value := decEqVal

mutual
/-- Structural deep copy of a value: models the external npm `clone-deep`
module used by `StateMachineInnerStore.rememberInitialState`. -/
def cloneDeepVal : Value → Value
  | Value.str s => Value.str s
  | Value.bool b => Value.bool b
  | Value.int n => Value.int n
  | Value.obj fs => Value.obj (cloneDeepProps fs)

/-- Structural deep copy of an object's field list. -/
def cloneDeepProps : List (String × Value) → List (String × Value)
  | [] => []
  | (k, v) :: rest => (k, cloneDeepVal v) :: cloneDeepProps rest
end

/-- The two recoverable transition conditions (`TransitionError` enum in
`StateMachine.ts`). -/
inductive TransitionError where
  | InvalidTransition
  | StateNotRegistered
deriving DecidableEq

/-- A registered callback: `id` is the JS function object's identity, and
`throws` says whether invoking it raises an uncaught exception.  Two
registrations of the same function carry the same `Cb` value. -/
structure Cb where
  id : Nat
  throws : Bool
deriving DecidableEq

/-- Per-state metadata recorded by the `@StateMachine.extend` decorator:
parent state name and the permitted next states.  The backing
`StateMachineMetadata` class is not among the provided sources; the record
itself is modelled from the spec (parent state name, permitted-next list). -/
structure StateMachineMetadata where
  parentState : String
  toStates : List String
deriving DecidableEq

/-- The per-machine-type static configuration: the metadata registry
(state name to `StateMachineMetadata`) and the declared state fields
(state name to overlay object, the value of `this[stateName]`). -/
structure MachineType where
  metadata : List (String × StateMachineMetadata)
  fields : List (String × Props)

/-- `StateMachineInnerStore`: current state name, the deep-copied initial
snapshot, and the callback lists keyed by state name. -/
structure StateMachineInnerStore where
  currentState : String
  initialState : Props
  onEnterCbs : List (String × List Cb)
  onLeaveCbs : List (String × List Cb)
deriving DecidableEq

/-- The `StateMachine` instance state: the constructor-supplied transition
list and logging flag, the live `props` bag, the `transitioning` re-entrancy
flag and the inner store. -/
structure StateMachine where
  initialTransitions : List String
  logging : Bool
  props : Props
  transitioning : Bool
  store : StateMachineInnerStore
deriving DecidableEq

/-- Line 43 of `StateMachine.ts`:
`this.logging = opts.logging === undefined ? false : true`. -/
def loggingFlag : Option Bool → Bool
  | none => false
  | some _ => true

/-- The value the spec assigns to the logging option: an optional boolean
that defaults to off, so an explicit `false` leaves logging disabled.
Stated from the spec's words for comparison with `loggingFlag`. -/
def loggingSpec : Option Bool → Bool
  | none => false
  | some b => b

/-- Whether `logError` writes a diagnostic message: it does exactly when the
instance's logging flag is set. -/
def logErrorEmits (logging : Bool) : Bool := logging

/-- Machine construction (the `StateMachine` constructor body after the
non-empty `initialTransitions` check): store the options, point `props` at
the supplied bag, and remember the deep-copied snapshot with
`currentState = "initial"` and no callbacks registered. -/
def newStateMachine (initialTransitions : List String) (logging : Option Bool)
    (props : Props) : StateMachine :=
  { initialTransitions := initialTransitions
    logging := loggingFlag logging
    props := props
    transitioning := false
    store :=
      { currentState := "initial"
        initialState := cloneDeepProps props
        onEnterCbs := []
        onLeaveCbs := [] } }

/-- The guarded constructor: throws (`none`) when `opts.initialTransitions`
is empty. -/
def mkStateMachine (initialTransitions : List String) (logging : Option Bool)
    (props : Props) : Option StateMachine :=
  if initialTransitions.length = 0 then none
  else some (newStateMachine initialTransitions logging props)

/-- Append a callback to the list registered for a state, creating the entry
when absent (`registerEnterCallback` / `registerLeaveCallback` bodies). -/
def appendCb : List (String × List Cb) → String → Cb → List (String × List Cb)
  | [], s, cb => [(s, [cb])]
  | (s0, cbs) :: rest, s, cb =>
    if s0 = s then (s0, cbs ++ [cb]) :: rest
    else (s0, cbs) :: appendCb rest s cb

/-- The deregistration handle body
`stateCbs.splice(stateCbs.indexOf(cb), 1)`: remove the first occurrence of
the function; when the function is absent, `indexOf` yields `-1` and
`splice(-1, 1)` removes the last element. -/
def spliceRemove (cbs : List Cb) (cb : Cb) : List Cb :=
  if cb ∈ cbs then cbs.erase cb else cbs.dropLast

/-- Apply a deregistration handle to the callback store. -/
def dropCb : List (String × List Cb) → String → Cb → List (String × List Cb)
  | [], _, _ => []
  | (s0, cbs) :: rest, s, cb =>
    if s0 = s then (s0, spliceRemove cbs cb) :: rest
    else (s0, cbs) :: dropCb rest s cb

/-- `onEnter` registration on a machine. -/
def registerEnterCallback (m : StateMachine) (stateName : String) (cb : Cb) : StateMachine :=
  { m with store := { m.store with onEnterCbs := appendCb m.store.onEnterCbs stateName cb } }

/-- `onLeave` registration on a machine. -/
def registerLeaveCallback (m : StateMachine) (stateName : String) (cb : Cb) : StateMachine :=
  { m with store := { m.store with onLeaveCbs := appendCb m.store.onLeaveCbs stateName cb } }

/-- Invoking the handle returned by `onEnter`. -/
def dropEnterCallback (m : StateMachine) (stateName : String) (cb : Cb) : StateMachine :=
  { m with store := { m.store with onEnterCbs := dropCb m.store.onEnterCbs stateName cb } }

/-- Invoking the handle returned by `onLeave`. -/
def dropLeaveCallback (m : StateMachine) (stateName : String) (cb : Cb) : StateMachine :=
  { m with store := { m.store with onLeaveCbs := dropCb m.store.onLeaveCbs stateName cb } }

/-- One observable callback invocation.  The event records the callback
identity, the arguments it receives, and what it observes on the machine at
invocation time: the live props, the current state name and the
`transitioning` flag. -/
inductive Event where
  | leave (cbId : Nat) (targetArg : String) (propsAt : Props) (currentAt : String)
      (flagAt : Bool)
  | enter (cbId : Nat) (prevArg : String) (extraArgs : List Value) (propsAt : Props)
      (currentAt : String) (flagAt : Bool)
deriving DecidableEq

/-- The `transitioning` flag an event's callback observed. -/
def evFlag : Event → Bool
  | Event.leave _ _ _ _ f => f
  | Event.enter _ _ _ _ _ f => f

/-- Run a callback list in order (`forEach` in `callEnterCbs` /
`callLeaveCbs`): each callback yields its invocation event; a throwing
callback stops the iteration and the exception propagates (second component
`true`). -/
def runCbList : List Cb → (Cb → Event) → List Event × Bool
  | [], _ => ([], false)
  | c :: rest, mk =>
    if c.throws then ([mk c], true)
    else
      let r := runCbList rest mk
      (mk c :: r.1, r.2)

/-- Walk `parentStateName` links upward (`while (parentStateName !==
'initial')` in `_transitTo`), prepending each ancestor's overlay.  A parent
with no declared field or metadata is a broken chain (fatal in the source: a
`TypeError` on the missing metadata); the fuel bounds the walk, so a cyclic
parent chain (which loops forever in the source) also yields `none`. -/
def buildChainAux (d : MachineType) : Nat → String → List Props → Option (List Props)
  | 0, _, _ => none
  | Nat.succ fuel, parentStateName, acc =>
    if parentStateName = "initial" then some acc
    else
      match alookup parentStateName d.fields, alookup parentStateName d.metadata with
      | some ov, some md => buildChainAux d fuel md.parentState (ov :: acc)
      | _, _ => none

/-- Build the ordered overlay chain for a target (`// Make chain of states`):
the target's own overlay last, ancestors prepended up to the sentinel
initial state.  For the target `"initial"` the chain is just the applied
snapshot. -/
def buildChain (d : MachineType) (targetState : String) (stateToApply : Props) :
    Option (List Props) :=
  if targetState = "initial" then some [stateToApply]
  else
    match alookup targetState d.metadata with
    | none => none
    | some md => buildChainAux d (d.metadata.length + 1) md.parentState [stateToApply]

/-- How a call to the private `_transitTo` finishes: a normal return
(`ok` or an error condition value), an exception out of a callback, or a
fatal broken-chain failure. -/
inductive Inner where
  | ok
  | err (e : TransitionError)
  | threwCb
  | fatal
deriving DecidableEq

/-- Apply the overlay chain to the live props (merge the snapshot onto the
bag, then each overlay in order) and advance the current state to the
target. -/
def applyAndAdvance (m : StateMachine) (targetState : String) (stateChain : List Props) :
    StateMachine :=
  { m with props := stateChain.foldl mergeProps (mergeProps m.props m.store.initialState)
           store := { m.store with currentState := targetState } }

/-- The private `_transitTo` body: registration check, permitted-transition
check, chain construction, leave callbacks, property merging, current-state
advance, enter callbacks.  Returns the machine after the call, the callback
invocation events in order, and how the call finished. -/
def _transitTo (d : MachineType) (m : StateMachine) (targetState : String)
    (args : List Value) : StateMachine × List Event × Inner :=
  match (if targetState ≠ "initial" then alookup targetState d.fields
         else some m.store.initialState) with
  | none => (m, [], Inner.err TransitionError.StateNotRegistered)
  | some stateToApply =>
    match (if m.store.currentState = "initial" then some m.initialTransitions
           else (alookup m.store.currentState d.metadata).map StateMachineMetadata.toStates) with
    | none => (m, [], Inner.fatal)
    | some toStates =>
      if targetState ∈ toStates then
        match buildChain d targetState stateToApply with
        | none => (m, [], Inner.fatal)
        | some stateChain =>
          match runCbList ((alookup m.store.currentState m.store.onLeaveCbs).getD [])
              (fun c => Event.leave c.id targetState m.props m.store.currentState
                m.transitioning) with
          | (levs, true) => (m, levs, Inner.threwCb)
          | (levs, false) =>
            match runCbList ((alookup targetState m.store.onEnterCbs).getD [])
                (fun c => Event.enter c.id m.store.currentState args
                  (applyAndAdvance m targetState stateChain).props targetState
                  m.transitioning) with
            | (eevs, true) =>
              (applyAndAdvance m targetState stateChain, levs ++ eevs, Inner.threwCb)
            | (eevs, false) =>
              (applyAndAdvance m targetState stateChain, levs ++ eevs, Inner.ok)
      else (m, [], Inner.err TransitionError.InvalidTransition)

/-- How a top-level `transitTo` call finishes: a normal return (`ok` or an
error condition value), the thrown re-entrancy `Error`, an exception
propagating out of a callback, or a fatal broken-chain failure. -/
inductive Outcome where
  | ok
  | err (e : TransitionError)
  | threwRecursive
  | threwCallback
  | fatal
deriving DecidableEq

/-- The public `transitTo` wrapper: throw the recursive-transition `Error`
when the `transitioning` flag is already set; otherwise set the flag, run
`_transitTo`, and clear the flag only on a normal return — an exception
(from a callback or a broken chain) propagates with the flag still set. -/
def transitTo (d : MachineType) (m : StateMachine) (targetState : String)
    (args : List Value) : StateMachine × List Event × Outcome :=
  if m.transitioning then (m, [], Outcome.threwRecursive)
  else
    let m1 : StateMachine := { m with transitioning := true }
    match _transitTo d m1 targetState args with
    | (m2, evs, Inner.ok) => ({ m2 with transitioning := false }, evs, Outcome.ok)
    | (m2, evs, Inner.err e) => ({ m2 with transitioning := false }, evs, Outcome.err e)
    | (m2, evs, Inner.threwCb) => (m2, evs, Outcome.threwCallback)
    | (m2, evs, Inner.fatal) => (m2, evs, Outcome.fatal)

/-- A public mutating operation on a machine instance. -/
inductive Op where
  | transit (targetState : String) (args : List Value)
  | onEnter (stateName : String) (cb : Cb)
  | onLeave (stateName : String) (cb : Cb)
  | dropEnter (stateName : String) (cb : Cb)
  | dropLeave (stateName : String) (cb : Cb)

/-- Apply one public operation to the machine. -/
def applyOp (d : MachineType) (m : StateMachine) : Op → StateMachine
  | Op.transit t args => (transitTo d m t args).1
  | Op.onEnter s cb => registerEnterCallback m s cb
  | Op.onLeave s cb => registerLeaveCallback m s cb
  | Op.dropEnter s cb => dropEnterCallback m s cb
  | Op.dropLeave s cb => dropLeaveCallback m s cb

/-- Run a sequence of public operations. -/
def runOps (d : MachineType) (m : StateMachine) : List Op → StateMachine
  | [] => m
  | op :: rest => runOps d (applyOp d m op) rest

/-- The spec's claimed post-transition property bag: the initial snapshot
overlaid with the target's overlay chain (root first).  Stated from the
spec's words for comparison with what `_transitTo` computes. -/
def specChainProps (d : MachineType) (snapshot : Props) (targetState : String) :
    Option Props :=
  let stateToApply? : Option Props :=
    if targetState ≠ "initial" then alookup targetState d.fields else some snapshot
  match stateToApply? with
  | none => none
  | some stateToApply =>
    match buildChain d targetState stateToApply with
    | none => none
    | some chain => some (chain.foldl mergeProps snapshot)

/-- The traffic-light machine type of the spec's scenario: `Red` (parent
initial, overlay message STOP, next `[Green]`), `Orange` (parent initial,
overlay message CAUTION, next `[Green, Red]`), `Green` (parent initial,
overlay message GO and safe true, next `[Orange]`). -/
def trafficType : MachineType :=
  { metadata :=
      [ ("Red", { parentState := "initial", toStates := ["Green"] })
      , ("Orange", { parentState := "initial", toStates := ["Green", "Red"] })
      , ("Green", { parentState := "initial", toStates := ["Orange"] }) ]
    fields :=
      [ ("Red", [("message", Value.str "STOP")])
      , ("Orange", [("message", Value.str "CAUTION")])
      , ("Green", [("message", Value.str "GO"), ("safe", Value.bool true)]) ] }

/-- The freshly constructed traffic-light machine: initial transitions
`[Green]`, props message OFF and safe false, logging omitted. -/
def trafficMachine : StateMachine :=
  newStateMachine ["Green"] none
    [("message", Value.str "OFF"), ("safe", Value.bool false)]

/-- The traffic-light machine with three callbacks registered: two enter
callbacks on `Green` (function ids 0 and 1, registered in that order) and
one leave callback on `initial` (function id 2). -/
def trafficWithCbs : StateMachine :=
  registerLeaveCallback
    (registerEnterCallback
      (registerEnterCallback trafficMachine "Green" { id := 0, throws := false })
      "Green" { id := 1, throws := false })
    "initial" { id := 2, throws := false }

/-- A machine type where state `A` declares a key the initial snapshot does
not contain: `A` (parent initial, overlay b 2, next `[B]`) and `B` (parent
initial, overlay a 3, no next states). -/
def strayKeyType : MachineType :=
  { metadata :=
      [ ("A", { parentState := "initial", toStates := ["B"] })
      , ("B", { parentState := "initial", toStates := [] }) ]
    fields := [ ("A", [("b", Value.int 2)]), ("B", [("a", Value.int 3)]) ] }

/-- Machine over `strayKeyType` with initial props a 1 and initial
transitions `[A]`. -/
def strayKeyMachine : StateMachine := newStateMachine ["A"] none [("a", Value.int 1)]

/-- A machine type whose only state `A` permits `"initial"` as next state. -/
def backToInitialType : MachineType :=
  { metadata := [ ("A", { parentState := "initial", toStates := ["initial"] }) ]
    fields := [ ("A", [("x", Value.int 7)]) ] }

/-- Machine over `backToInitialType`: initial transitions `[A]`, props x 1. -/
def backToInitialMachine : StateMachine := newStateMachine ["A"] none [("x", Value.int 1)]

/-- Sanity check of the modelled deep merge on the repository's own test
shape: deep-merging an overlay that sets only `alert.text` preserves the
sibling key `alert.visible`. -/
theorem mergeProps_deepMerge_example :
    mergeProps [("alert", Value.obj [("text", Value.str "alert"), ("visible", Value.bool true)])]
      [("alert", Value.obj [("text", Value.str "success")])]
    = [("alert", Value.obj [("text", Value.str "success"), ("visible", Value.bool true)])] := by
  decide

mutual
theorem cloneDeepVal_id : (v : Value) → cloneDeepVal v = v
  | Value.str _ => rfl
  | Value.bool _ => rfl
  | Value.int _ => rfl
  | Value.obj fs => by
    rw [cloneDeepVal]
    exact congrArg Value.obj (cloneDeepProps_id fs)

theorem cloneDeepProps_id : (p : List (String × Value)) → cloneDeepProps p = p
  | [] => rfl
  | (k, v) :: rest => by
    rw [cloneDeepProps, cloneDeepVal_id v, cloneDeepProps_id rest]
end

theorem runCbList_noThrow (cbs : List Cb) (mk : Cb → Event)
    (h : (runCbList cbs mk).2 = false) : (runCbList cbs mk).1 = cbs.map mk := by
  induction cbs with
  | nil => rfl
  | cons c rest ih =>
    by_cases hc : c.throws
    · simp [runCbList, hc] at h
    · simp only [runCbList, hc, Bool.false_eq_true, if_false, List.map_cons] at h ⊢
      exact congrArg _ (ih h)

theorem runCbList_mem (cbs : List Cb) (mk : Cb → Event) (ev : Event)
    (h : ev ∈ (runCbList cbs mk).1) : ∃ c ∈ cbs, ev = mk c := by
  induction cbs with
  | nil => simp [runCbList] at h
  | cons c rest ih =>
    by_cases hc : c.throws
    · simp [runCbList, hc] at h
      exact ⟨c, List.mem_cons_self c rest, h⟩
    · simp only [runCbList, hc, Bool.false_eq_true, if_false, List.mem_cons] at h
      rcases h with h | h
      · exact ⟨c, List.mem_cons_self c rest, h⟩
      · rcases ih h with ⟨c2, hc2, hev⟩
        exact ⟨c2, List.mem_cons_of_mem c hc2, hev⟩

theorem alookup_mem {α : Type} (k : String) (l : List (String × α)) (v : α)
    (h : alookup k l = some v) : (k, v) ∈ l := by
  induction l with
  | nil => simp [alookup] at h
  | cons p rest ih =>
    rcases p with ⟨k0, v0⟩
    by_cases hk : k0 = k
    · subst hk
      simp [alookup] at h
      subst h
      exact List.mem_cons_self _ _
    · simp [alookup, hk] at h
      exact List.mem_cons_of_mem _ (ih h)

theorem _transitTo_transitioning (d : MachineType) (m : StateMachine) (t : String)
    (args : List Value) : (_transitTo d m t args).1.transitioning = m.transitioning := by
  unfold _transitTo
  split
  · rfl
  · split
    · rfl
    · split
      · split
        · rfl
        · split
          · rfl
          · split
            · rfl
            · rfl
      · rfl

theorem _transitTo_initialState (d : MachineType) (m : StateMachine) (t : String)
    (args : List Value) :
    (_transitTo d m t args).1.store.initialState = m.store.initialState := by
  unfold _transitTo
  split
  · rfl
  · split
    · rfl
    · split
      · split
        · rfl
        · split
          · rfl
          · split
            · rfl
            · rfl
      · rfl

theorem _transitTo_err (d : MachineType) (m : StateMachine) (t : String) (args : List Value)
    (m2 : StateMachine) (evs : List Event) (e : TransitionError)
    (h : _transitTo d m t args = (m2, evs, Inner.err e)) : m2 = m ∧ evs = [] := by
  unfold _transitTo at h
  split at h
  · simp only [Prod.mk.injEq] at h
    exact ⟨h.1.symm, h.2.1.symm⟩
  · split at h
    · simp at h
    · split at h
      · split at h
        · simp at h
        · split at h
          · simp at h
          · split at h
            · simp at h
            · simp at h
      · simp only [Prod.mk.injEq] at h
        exact ⟨h.1.symm, h.2.1.symm⟩

theorem _transitTo_ok (d : MachineType) (m : StateMachine) (t : String) (args : List Value)
    (m2 : StateMachine) (evs : List Event)
    (h : _transitTo d m t args = (m2, evs, Inner.ok)) :
    ∃ stateToApply stateChain,
      (if t ≠ "initial" then alookup t d.fields else some m.store.initialState)
        = some stateToApply ∧
      buildChain d t stateToApply = some stateChain ∧
      m2 = applyAndAdvance m t stateChain ∧
      evs = ((alookup m.store.currentState m.store.onLeaveCbs).getD []).map
              (fun c => Event.leave c.id t m.props m.store.currentState m.transitioning)
            ++ ((alookup t m.store.onEnterCbs).getD []).map
              (fun c => Event.enter c.id m.store.currentState args
                (applyAndAdvance m t stateChain).props t m.transitioning) := by
  unfold _transitTo at h
  split at h
  · simp at h
  · rename_i stateToApply hsta
    split at h
    · simp at h
    · split at h
      · split at h
        · simp at h
        · rename_i stateChain hchain
          split at h
          · simp at h
          · rename_i levs hleave
            split at h
            · simp at h
            · rename_i eevs henter
              simp only [Prod.mk.injEq] at h
              refine ⟨stateToApply, stateChain, hsta, hchain, h.1.symm, ?_⟩
              have hl := runCbList_noThrow
                ((alookup m.store.currentState m.store.onLeaveCbs).getD [])
                (fun c => Event.leave c.id t m.props m.store.currentState m.transitioning)
                (by rw [hleave])
              have he := runCbList_noThrow ((alookup t m.store.onEnterCbs).getD [])
                (fun c => Event.enter c.id m.store.currentState args
                  (applyAndAdvance m t stateChain).props t m.transitioning)
                (by rw [henter])
              rw [hleave] at hl
              rw [henter] at he
              dsimp only at hl he
              rw [← h.2.1, hl, he]
      · simp at h

theorem _transitTo_evFlag (d : MachineType) (m : StateMachine) (t : String)
    (args : List Value) :
    ∀ ev ∈ (_transitTo d m t args).2.1, evFlag ev = m.transitioning := by
  intro ev hev
  unfold _transitTo at hev
  split at hev
  · simp at hev
  · split at hev
    · simp at hev
    · split at hev
      · split at hev
        · simp at hev
        · split at hev
          · rename_i levs hleave
            simp only at hev
            have := runCbList_mem _ _ ev (by rw [hleave]; exact hev)
            rcases this with ⟨c, _, rfl⟩
            rfl
          · rename_i levs hleave
            split at hev
            · rename_i eevs henter
              simp only [List.mem_append] at hev
              rcases hev with hev | hev
              · have := runCbList_mem _ _ ev (by rw [hleave]; exact hev)
                rcases this with ⟨c, _, rfl⟩
                rfl
              · have := runCbList_mem _ _ ev (by rw [henter]; exact hev)
                rcases this with ⟨c, _, rfl⟩
                rfl
            · rename_i eevs henter
              simp only [List.mem_append] at hev
              rcases hev with hev | hev
              · have := runCbList_mem _ _ ev (by rw [hleave]; exact hev)
                rcases this with ⟨c, _, rfl⟩
                rfl
              · have := runCbList_mem _ _ ev (by rw [henter]; exact hev)
                rcases this with ⟨c, _, rfl⟩
                rfl
      · simp at hev

theorem setFlagFalse_eq (m : StateMachine) (h : m.transitioning = false) :
    { m with transitioning := false } = m := by
  cases m
  simp_all

theorem transitTo_guard (d : MachineType) (m : StateMachine) (t : String)
    (args : List Value) (h : m.transitioning = true) :
    transitTo d m t args = (m, [], Outcome.threwRecursive) := by
  unfold transitTo
  simp [h]

theorem transitTo_ok_split (d : MachineType) (m m' : StateMachine) (t : String)
    (args : List Value) (evs : List Event)
    (h : transitTo d m t args = (m', evs, Outcome.ok)) :
    m.transitioning = false ∧
    ∃ m2, _transitTo d { m with transitioning := true } t args = (m2, evs, Inner.ok) ∧
      m' = { m2 with transitioning := false } := by
  have hflag : m.transitioning = false := by
    by_contra hc
    rw [Bool.not_eq_false] at hc
    rw [transitTo_guard d m t args hc] at h
    simp at h
  refine ⟨hflag, ?_⟩
  unfold transitTo at h
  rw [hflag] at h
  simp only [Bool.false_eq_true, if_false] at h
  split at h
  · rename_i m2 evs2 hinner
    simp only [Prod.mk.injEq] at h
    exact ⟨m2, by rw [hinner, h.2.1], h.1.symm⟩
  · simp at h
  · simp at h
  · simp at h

/-- C1 (amended): after every successful `transitTo(targetState, args)` call
the current state equals the target, and the live property bag equals the
pre-transition bag with the initial snapshot merged onto it and then each
overlay of the target's parent chain merged in order, root first, so a field
set by the target wins over any ancestor.  Whenever merging the snapshot
over the pre-transition bag restores exactly the snapshot (in particular
whenever no overlay ever introduced a key absent from the snapshot), this
coincides with the claim's formula: the snapshot overlaid with the chain.
The claim's unconditional formula fails because the source resets the bag
by merging the snapshot onto it, which leaves keys the snapshot lacks; see
the counterexample. -/
theorem C1_success_merged_overlays (d : MachineType) (m m' : StateMachine) (t : String)
    (args : List Value) (evs : List Event)
    (h : transitTo d m t args = (m', evs, Outcome.ok)) :
    m'.store.currentState = t ∧
    ∃ stateToApply stateChain,
      (if t ≠ "initial" then alookup t d.fields else some m.store.initialState)
        = some stateToApply ∧
      buildChain d t stateToApply = some stateChain ∧
      m'.props = stateChain.foldl mergeProps (mergeProps m.props m.store.initialState) ∧
      (mergeProps m.props m.store.initialState = m.store.initialState →
        m'.props = stateChain.foldl mergeProps m.store.initialState) := by
  rcases transitTo_ok_split d m m' t args evs h with ⟨hflag, m2, hinner, hm'⟩
  rcases _transitTo_ok d _ t args m2 evs hinner with
    ⟨stateToApply, stateChain, hsta, hchain, hm2, _⟩
  subst hm'
  subst hm2
  refine ⟨rfl, stateToApply, stateChain, hsta, hchain, rfl, ?_⟩
  intro hreset
  simp only [applyAndAdvance]
  rw [show ({ m with transitioning := true } : StateMachine).props = m.props from rfl,
    show ({ m with transitioning := true } : StateMachine).store = m.store from rfl, hreset]

/-- C1 counterexample: over `strayKeyType`, state `A` declares key `b` which
the initial snapshot (only key `a`) lacks.  After the successful sequence
initial to `A` to `B`, the live bag is a 3, b 2 — key `b` survives from the
previous state — while the claim's formula (snapshot overlaid with the
chain of `B`) yields just a 3.  So a successful transition does not always
leave the bag equal to the snapshot overlaid with the target's chain. -/
theorem C1_counterexample :
    (transitTo strayKeyType (transitTo strayKeyType strayKeyMachine "A" []).1 "B" []).2.2
      = Outcome.ok ∧
    specChainProps strayKeyType
      (transitTo strayKeyType strayKeyMachine "A" []).1.store.initialState "B"
      = some [("a", Value.int 3)] ∧
    (transitTo strayKeyType (transitTo strayKeyType strayKeyMachine "A" []).1 "B" []).1.props
      = [("a", Value.int 3), ("b", Value.int 2)] ∧
    ([("a", Value.int 3), ("b", Value.int 2)] : Props) ≠ [("a", Value.int 3)] := by
  decide

theorem C1_success_merged_overlays_witness :
    transitTo trafficType trafficMachine "Green" []
      = ((transitTo trafficType trafficMachine "Green" []).1,
         (transitTo trafficType trafficMachine "Green" []).2.1, Outcome.ok) ∧
    ((transitTo trafficType trafficMachine "Green" []).1.store.currentState = "Green" ∧
     ∃ stateToApply stateChain,
      (if "Green" ≠ "initial" then alookup "Green" trafficType.fields
        else some trafficMachine.store.initialState) = some stateToApply ∧
      buildChain trafficType "Green" stateToApply = some stateChain ∧
      (transitTo trafficType trafficMachine "Green" []).1.props
        = stateChain.foldl mergeProps
            (mergeProps trafficMachine.props trafficMachine.store.initialState) ∧
      (mergeProps trafficMachine.props trafficMachine.store.initialState
          = trafficMachine.store.initialState →
        (transitTo trafficType trafficMachine "Green" []).1.props
          = stateChain.foldl mergeProps trafficMachine.store.initialState)) :=
  ⟨by decide,
   C1_success_merged_overlays trafficType trafficMachine
     (transitTo trafficType trafficMachine "Green" []).1 "Green" []
     (transitTo trafficType trafficMachine "Green" []).2.1 (by decide)⟩

/-- C2: a `transitTo` call that fails with either condition returns the
condition as a value (the `Outcome.err` constructor, distinct from the
thrown outcomes) and leaves the machine — current state and every property
— exactly as before the call, with no callback invoked. -/
theorem C2_failure_is_noop (d : MachineType) (m m' : StateMachine) (t : String)
    (args : List Value) (evs : List Event) (e : TransitionError)
    (h : transitTo d m t args = (m', evs, Outcome.err e)) :
    m' = m ∧ evs = [] := by
  have hflag : m.transitioning = false := by
    by_contra hc
    rw [Bool.not_eq_false] at hc
    rw [transitTo_guard d m t args hc] at h
    simp at h
  unfold transitTo at h
  rw [hflag] at h
  simp only [Bool.false_eq_true, if_false] at h
  split at h
  · simp at h
  · rename_i m2 evs2 e2 hinner
    rcases _transitTo_err d _ t args m2 evs2 e2 hinner with ⟨hm2, hevs2⟩
    simp only [Prod.mk.injEq] at h
    subst hm2
    subst hevs2
    refine ⟨?_, h.2.1.symm⟩
    rw [← h.1]
    exact setFlagFalse_eq m hflag
  · simp at h
  · simp at h

theorem C2_failure_is_noop_witness :
    transitTo trafficType trafficMachine "Red" []
      = ((transitTo trafficType trafficMachine "Red" []).1,
         (transitTo trafficType trafficMachine "Red" []).2.1,
         Outcome.err TransitionError.InvalidTransition) ∧
    ((transitTo trafficType trafficMachine "Red" []).1 = trafficMachine ∧
     (transitTo trafficType trafficMachine "Red" []).2.1 = []) :=
  ⟨by decide,
   C2_failure_is_noop trafficType trafficMachine
     (transitTo trafficType trafficMachine "Red" []).1 "Red" []
     (transitTo trafficType trafficMachine "Red" []).2.1
     TransitionError.InvalidTransition (by decide)⟩

/-- C3: invoking `transitTo` while a transition is in flight (the
`transitioning` flag set, as it is inside every enter/leave callback of an
in-flight transition — every event records a set flag) throws the
recursive-transition error, an outcome distinct from the two returned
transition conditions; and after a top-level call that completes normally —
success or either validation failure — the flag is clear again, so a
subsequent top-level call is not rejected by the guard. -/
theorem C3_reentrancy_guard (d : MachineType) (m : StateMachine) (t : String)
    (args : List Value) :
    (m.transitioning = true → transitTo d m t args = (m, [], Outcome.threwRecursive)) ∧
    (∀ e, Outcome.threwRecursive ≠ Outcome.err e) ∧
    Outcome.threwRecursive ≠ Outcome.ok ∧
    (∀ m' evs o, m.transitioning = false → transitTo d m t args = (m', evs, o) →
      (o = Outcome.ok ∨ ∃ e, o = Outcome.err e) → m'.transitioning = false) ∧
    (∀ ev ∈ (transitTo d m t args).2.1, evFlag ev = true) := by
  refine ⟨transitTo_guard d m t args, fun e => by simp, by simp, ?_, ?_⟩
  · intro m' evs o hflag h ho
    unfold transitTo at h
    rw [hflag] at h
    simp only [Bool.false_eq_true, if_false] at h
    split at h
    · simp only [Prod.mk.injEq] at h
      rw [← h.1]
    · simp only [Prod.mk.injEq] at h
      rw [← h.1]
    · simp only [Prod.mk.injEq] at h
      rcases ho with ho | ⟨e, ho⟩ <;> rw [ho] at h <;> simp at h
    · simp only [Prod.mk.injEq] at h
      rcases ho with ho | ⟨e, ho⟩ <;> rw [ho] at h <;> simp at h
  · intro ev hev
    by_cases hf : m.transitioning = true
    · rw [transitTo_guard d m t args hf] at hev
      simp at hev
    · have hflag : m.transitioning = false := Bool.not_eq_true _ |>.mp hf
      unfold transitTo at hev
      rw [hflag] at hev
      simp only [Bool.false_eq_true, if_false] at hev
      have hall := _transitTo_evFlag d { m with transitioning := true } t args
      split at hev
      all_goals
        rename_i hinner
        rw [hinner] at hall
        exact hall ev hev

theorem C3_reentrancy_guard_witness :
    ({ trafficMachine with transitioning := true } : StateMachine).transitioning = true ∧
    transitTo trafficType { trafficMachine with transitioning := true } "Green" []
      = ({ trafficMachine with transitioning := true }, [], Outcome.threwRecursive) ∧
    trafficMachine.transitioning = false ∧
    (transitTo trafficType trafficMachine "Green" []).1.transitioning = false :=
  ⟨rfl,
   (C3_reentrancy_guard trafficType { trafficMachine with transitioning := true }
     "Green" []).1 rfl,
   rfl,
   (C3_reentrancy_guard trafficType trafficMachine "Green" []).2.2.2.1
     (transitTo trafficType trafficMachine "Green" []).1
     (transitTo trafficType trafficMachine "Green" []).2.1
     (transitTo trafficType trafficMachine "Green" []).2.2 rfl (by decide)
     (Or.inl (by decide))⟩

/-- C4: on every successful transition the event trace is exactly the leave
callbacks registered for the pre-transition current state, in registration
order, each receiving the target state and observing the pre-transition
props and current state, followed by the enter callbacks registered for the
target, in registration order, each receiving the previous state name and
the extra `transitTo` arguments and observing the post-transition props with
the current state already advanced to the target. -/
theorem C4_callback_order (d : MachineType) (m m' : StateMachine) (t : String)
    (args : List Value) (evs : List Event)
    (h : transitTo d m t args = (m', evs, Outcome.ok)) :
    m'.store.currentState = t ∧
    evs = ((alookup m.store.currentState m.store.onLeaveCbs).getD []).map
            (fun c => Event.leave c.id t m.props m.store.currentState true)
          ++ ((alookup t m.store.onEnterCbs).getD []).map
            (fun c => Event.enter c.id m.store.currentState args m'.props t true) := by
  rcases transitTo_ok_split d m m' t args evs h with ⟨hflag, m2, hinner, hm'⟩
  rcases _transitTo_ok d _ t args m2 evs hinner with ⟨sta, chain, hsta, hchain, hm2, hevs⟩
  subst hm'
  subst hm2
  exact ⟨rfl, hevs⟩

theorem C4_callback_order_witness :
    transitTo trafficType trafficWithCbs "Green" [Value.int 9]
      = ((transitTo trafficType trafficWithCbs "Green" [Value.int 9]).1,
         (transitTo trafficType trafficWithCbs "Green" [Value.int 9]).2.1, Outcome.ok) ∧
    ((transitTo trafficType trafficWithCbs "Green" [Value.int 9]).1.store.currentState
        = "Green" ∧
     (transitTo trafficType trafficWithCbs "Green" [Value.int 9]).2.1
       = ((alookup trafficWithCbs.store.currentState trafficWithCbs.store.onLeaveCbs).getD
            []).map
            (fun c => Event.leave c.id "Green" trafficWithCbs.props
              trafficWithCbs.store.currentState true)
         ++ ((alookup "Green" trafficWithCbs.store.onEnterCbs).getD []).map
            (fun c => Event.enter c.id trafficWithCbs.store.currentState [Value.int 9]
              (transitTo trafficType trafficWithCbs "Green" [Value.int 9]).1.props
              "Green" true)) :=
  ⟨by decide,
   C4_callback_order trafficType trafficWithCbs
     (transitTo trafficType trafficWithCbs "Green" [Value.int 9]).1 "Green" [Value.int 9]
     (transitTo trafficType trafficWithCbs "Green" [Value.int 9]).2.1 (by decide)⟩

theorem transitTo_initialState (d : MachineType) (m : StateMachine) (t : String)
    (args : List Value) :
    (transitTo d m t args).1.store.initialState = m.store.initialState := by
  unfold transitTo
  by_cases hf : m.transitioning = true
  · simp [hf]
  · have hflag : m.transitioning = false := Bool.not_eq_true _ |>.mp hf
    rw [hflag]
    simp only [Bool.false_eq_true, if_false]
    have hall := _transitTo_initialState d { m with transitioning := true } t args
    split
    all_goals
      rename_i hinner
      rw [hinner] at hall
      exact hall

theorem applyOp_initialState (d : MachineType) (m : StateMachine) (op : Op) :
    (applyOp d m op).store.initialState = m.store.initialState := by
  cases op with
  | transit t args => exact transitTo_initialState d m t args
  | onEnter s cb => rfl
  | onLeave s cb => rfl
  | dropEnter s cb => rfl
  | dropLeave s cb => rfl

/-- C5: the initial property snapshot is captured once at construction as a
deep copy of the supplied props (the structural copy of `clone-deep`, which
equals the props themselves), and no sequence of public operations —
transitions, callback registrations or deregistrations — ever changes it:
after any operation sequence the stored snapshot still equals the
construction-time property values. -/
theorem C5_snapshot_immutable (d : MachineType) (its : List String) (log : Option Bool)
    (p0 : Props) (ops : List Op) :
    (runOps d (newStateMachine its log p0) ops).store.initialState = p0 ∧
    (newStateMachine its log p0).store.initialState = cloneDeepProps p0 := by
  have hgen : ∀ (m : StateMachine) (l : List Op),
      (runOps d m l).store.initialState = m.store.initialState := by
    intro m l
    induction l generalizing m with
    | nil => rfl
    | cons op rest ih => rw [runOps, ih, applyOp_initialState]
  refine ⟨?_, rfl⟩
  rw [hgen]
  exact cloneDeepProps_id p0

theorem _transitTo_initial_target (d : MachineType) (m : StateMachine) (args : List Value)
    (h1 : "initial" ∉ m.initialTransitions)
    (h2 : ∀ p ∈ d.metadata, "initial" ∉ p.2.toStates) :
    (_transitTo d m "initial" args).2.2 ≠ Inner.ok := by
  unfold _transitTo
  split
  · simp
  · split
    · simp
    · rename_i toStates hperm
      split
      · rename_i hmem
        exfalso
        by_cases hcur : m.store.currentState = "initial"
        · rw [if_pos hcur] at hperm
          injection hperm with hperm
          subst hperm
          exact h1 hmem
        · rw [if_neg hcur] at hperm
          rcases Option.map_eq_some'.mp hperm with ⟨md, hmd, hts⟩
          subst hts
          exact h2 _ (alookup_mem _ _ _ hmd) hmem
      · simp

/-- C6 (amended): `transitTo("initial")` succeeds only when `"initial"` is
explicitly listed in the applicable permitted list; in a configuration where
`"initial"` appears neither in `initialTransitions` nor in any state's
permitted-next list, no `transitTo("initial")` call ever succeeds, so no
transition returns such a machine to the initial state.  The original claim
fails because `_transitTo` treats the target `"initial"` as registered (the
snapshot is its overlay) and validates it like any other target, so a
permitted list naming `"initial"` makes the transition succeed — an
effective reset; see the counterexample. -/
theorem C6_initial_never_target (d : MachineType) (m : StateMachine) (args : List Value)
    (h1 : "initial" ∉ m.initialTransitions)
    (h2 : ∀ p ∈ d.metadata, "initial" ∉ p.2.toStates) :
    (transitTo d m "initial" args).2.2 ≠ Outcome.ok := by
  unfold transitTo
  by_cases hf : m.transitioning = true
  · simp [hf]
  · have hflag : m.transitioning = false := Bool.not_eq_true _ |>.mp hf
    rw [hflag]
    simp only [Bool.false_eq_true, if_false]
    have hne := _transitTo_initial_target d { m with transitioning := true } args h1 h2
    split
    · rename_i hinner
      rw [hinner] at hne
      exact absurd rfl hne
    · simp
    · simp
    · simp

/-- C6 counterexample: over `backToInitialType` — whose single state `A`
permits `"initial"` as a next state — the sequence initial to `A`, then
`transitTo("initial")`, succeeds and the machine is back in the initial
state, so `"initial"` can be a valid transition target and the code does
support an effective reset when configured to. -/
theorem C6_counterexample :
    (transitTo backToInitialType (transitTo backToInitialType backToInitialMachine "A" []).1
      "initial" []).2.2 = Outcome.ok ∧
    (transitTo backToInitialType (transitTo backToInitialType backToInitialMachine "A" []).1
      "initial" []).1.store.currentState = "initial" := by
  decide

theorem C6_initial_never_target_witness :
    ("initial" ∉ trafficMachine.initialTransitions) ∧
    (∀ p ∈ trafficType.metadata, "initial" ∉ p.2.toStates) ∧
    (transitTo trafficType trafficMachine "initial" []).2.2 ≠ Outcome.ok :=
  ⟨by decide, by decide,
   C6_initial_never_target trafficType trafficMachine [] (by decide) (by decide)⟩

/-- The machine after `transitTo(Green)` on the fresh traffic light. -/
def trafficAfterGreen : StateMachine := (transitTo trafficType trafficMachine "Green" []).1

/-- The machine after `transitTo(Green)` then `transitTo(Orange)`. -/
def trafficAfterOrange : StateMachine :=
  (transitTo trafficType trafficAfterGreen "Orange" []).1

/-- C7 (amended): on the configured traffic light, `transitTo(Green)`
succeeds with properties message GO, safe true; `transitTo(Orange)` succeeds
with message CAUTION and safe reverted to false; and the following
`transitTo(Red)` also SUCCEEDS — `Red` is in Orange's permitted-next list
`[Green, Red]` — yielding message STOP, safe false. -/
theorem C7_traffic_scenario :
    (transitTo trafficType trafficMachine "Green" []).2.2 = Outcome.ok ∧
    trafficAfterGreen.props = [("message", Value.str "GO"), ("safe", Value.bool true)] ∧
    (transitTo trafficType trafficAfterGreen "Orange" []).2.2 = Outcome.ok ∧
    trafficAfterOrange.props
      = [("message", Value.str "CAUTION"), ("safe", Value.bool false)] ∧
    (transitTo trafficType trafficAfterOrange "Red" []).2.2 = Outcome.ok ∧
    (transitTo trafficType trafficAfterOrange "Red" []).1.props
      = [("message", Value.str "STOP"), ("safe", Value.bool false)] := by
  decide

/-- C7 counterexample: the third call `transitTo(Red)` does not fail with
`InvalidTransition` as claimed — Orange's permitted-next list `[Green, Red]`
contains `Red`, so the call succeeds and the properties become message STOP,
safe false rather than remaining message CAUTION. -/
theorem C7_counterexample :
    (transitTo trafficType trafficAfterOrange "Red" []).2.2 = Outcome.ok ∧
    (transitTo trafficType trafficAfterOrange "Red" []).2.2
      ≠ Outcome.err TransitionError.InvalidTransition ∧
    (transitTo trafficType trafficAfterOrange "Red" []).1.props
      ≠ [("message", Value.str "CAUTION"), ("safe", Value.bool false)] := by
  decide

theorem dropCb_alookup (l : List (String × List Cb)) (s : String) (cb : Cb) (cbs : List Cb)
    (h : alookup s l = some cbs) :
    alookup s (dropCb l s cb) = some (spliceRemove cbs cb) := by
  induction l with
  | nil => simp [alookup] at h
  | cons p rest ih =>
    rcases p with ⟨s0, cbs0⟩
    by_cases hs : s0 = s
    · subst hs
      simp only [alookup, if_pos] at h
      injection h with h
      subst h
      simp [dropCb, alookup]
    · simp only [alookup, if_neg hs] at h
      simp only [dropCb, if_neg hs, alookup, if_neg hs]
      exact ih h

/-- The spec's removal semantics, stated from its words: deregistration
deletes exactly the registration at the given position, keeping every other
registration in its original order. -/
def removeRegistrationAt (cbs : List Cb) (i : Nat) : List Cb := cbs.eraseIdx i

/-- C8 (amended): invoking a deregistration handle removes the earliest
registered occurrence of that function from the state's list for that phase
(the handle does `splice(indexOf(cb), 1)`), so when that function has a
single registration for the state and phase — in particular whenever all
registered callbacks are distinct functions — exactly that callback instance
is removed, and all other callbacks keep their original relative order.
With duplicate registrations of one function, the handle of a later
duplicate removes the earliest occurrence instead of its own; see the
counterexample. -/
theorem C8_deregistration (m : StateMachine) (s : String) (cb : Cb) (l : List Cb) :
    (alookup s m.store.onEnterCbs = some l → cb ∈ l →
      ∃ l1 l2, l = l1 ++ cb :: l2 ∧ cb ∉ l1 ∧
        alookup s (dropEnterCallback m s cb).store.onEnterCbs = some (l1 ++ l2)) ∧
    (alookup s m.store.onLeaveCbs = some l → cb ∈ l →
      ∃ l1 l2, l = l1 ++ cb :: l2 ∧ cb ∉ l1 ∧
        alookup s (dropLeaveCallback m s cb).store.onLeaveCbs = some (l1 ++ l2)) := by
  constructor
  · intro hl hmem
    rcases List.exists_erase_eq hmem with ⟨l1, l2, hnotin, hsplit, herase⟩
    refine ⟨l1, l2, hsplit, hnotin, ?_⟩
    have hd := dropCb_alookup m.store.onEnterCbs s cb l hl
    rw [show spliceRemove l cb = l.erase cb from if_pos hmem, herase] at hd
    exact hd
  · intro hl hmem
    rcases List.exists_erase_eq hmem with ⟨l1, l2, hnotin, hsplit, herase⟩
    refine ⟨l1, l2, hsplit, hnotin, ?_⟩
    have hd := dropCb_alookup m.store.onLeaveCbs s cb l hl
    rw [show spliceRemove l cb = l.erase cb from if_pos hmem, herase] at hd
    exact hd

/-- Machine with enter callbacks for state `"s"` registered in the order:
function 0, function 1, function 0 again. -/
def dupCbMachine : StateMachine :=
  registerEnterCallback
    (registerEnterCallback
      (registerEnterCallback (newStateMachine ["s"] none []) "s"
        { id := 0, throws := false })
      "s" { id := 1, throws := false })
    "s" { id := 0, throws := false }

/-- C8 counterexample: with function 0 registered, then function 1, then
function 0 again, invoking the handle of the third registration removes the
FIRST occurrence of function 0 (the list becomes `[1, 0]`), whereas removing
exactly that third registered instance would leave `[0, 1]`; the remaining
callbacks therefore do not retain their original relative invocation
order. -/
theorem C8_counterexample :
    alookup "s" dupCbMachine.store.onEnterCbs
      = some [{ id := 0, throws := false }, { id := 1, throws := false },
              { id := 0, throws := false }] ∧
    alookup "s" (dropEnterCallback dupCbMachine "s"
        { id := 0, throws := false }).store.onEnterCbs
      = some [{ id := 1, throws := false }, { id := 0, throws := false }] ∧
    removeRegistrationAt
        [{ id := 0, throws := false }, { id := 1, throws := false },
         { id := 0, throws := false }] 2
      = [{ id := 0, throws := false }, { id := 1, throws := false }] ∧
    ([{ id := 1, throws := false }, { id := 0, throws := false }] : List Cb)
      ≠ [{ id := 0, throws := false }, { id := 1, throws := false }] := by
  decide

theorem C8_deregistration_witness :
    alookup "Green" trafficWithCbs.store.onEnterCbs
      = some [{ id := 0, throws := false }, { id := 1, throws := false }] ∧
    ({ id := 0, throws := false } : Cb)
      ∈ [({ id := 0, throws := false } : Cb), { id := 1, throws := false }] ∧
    ∃ l1 l2,
      [({ id := 0, throws := false } : Cb), { id := 1, throws := false }]
        = l1 ++ { id := 0, throws := false } :: l2 ∧
      ({ id := 0, throws := false } : Cb) ∉ l1 ∧
      alookup "Green" (dropEnterCallback trafficWithCbs "Green"
          { id := 0, throws := false }).store.onEnterCbs = some (l1 ++ l2) :=
  ⟨by decide, by decide,
   (C8_deregistration trafficWithCbs "Green" { id := 0, throws := false }
     [{ id := 0, throws := false }, { id := 1, throws := false }]).1
     (by decide) (by decide)⟩

/-- C9: the constructor line `this.logging = opts.logging === undefined ?
false : true` treats every supplied value as enabling logging, so
constructing with `logging: false` sets the flag to `true` and `logError`
then emits diagnostics on the failure paths — contradicting the documented
optional-boolean-default-off contract, under which an explicit `false`
keeps diagnostics off (`loggingSpec`).  Omitting the option does disable
logging. -/
theorem C9_logging_flag_bug :
    loggingFlag none = false ∧ loggingFlag (some true) = true ∧
    loggingFlag (some false) = true ∧ loggingSpec (some false) = false ∧
    logErrorEmits (loggingFlag (some false)) = true ∧
    (newStateMachine ["Green"] (some false)
      [("message", Value.str "OFF"), ("safe", Value.bool false)]).logging = true := by
  decide

/-- C10: when a callback throws out of `transitTo`, the wrapper never
reaches the line clearing the `transitioning` flag, so the returned machine
still has the flag set and every subsequent `transitTo` call on it throws
the recursive-transition error while leaving the machine unchanged — the
instance's transitions are permanently disabled. -/
theorem C10_callback_exception_wedges (d : MachineType) (m m' : StateMachine) (t : String)
    (args : List Value) (evs : List Event)
    (h : transitTo d m t args = (m', evs, Outcome.threwCallback)) :
    m'.transitioning = true ∧
    ∀ t2 args2, transitTo d m' t2 args2 = (m', [], Outcome.threwRecursive) := by
  have hm' : m'.transitioning = true := by
    by_cases hf : m.transitioning = true
    · rw [transitTo_guard d m t args hf] at h
      simp at h
    · have hflag : m.transitioning = false := Bool.not_eq_true _ |>.mp hf
      unfold transitTo at h
      rw [hflag] at h
      simp only [Bool.false_eq_true, if_false] at h
      have htr := _transitTo_transitioning d { m with transitioning := true } t args
      split at h
      · simp at h
      · simp at h
      · rename_i m2 evs2 hinner
        simp only [Prod.mk.injEq] at h
        rw [← h.1]
        rw [hinner] at htr
        exact htr
      · simp at h
  exact ⟨hm', fun t2 args2 => transitTo_guard d m' t2 args2 hm'⟩

/-- The traffic light with a throwing enter callback on `Green`. -/
def throwingCbMachine : StateMachine :=
  registerEnterCallback trafficMachine "Green" { id := 7, throws := true }

theorem C10_callback_exception_wedges_witness :
    transitTo trafficType throwingCbMachine "Green" []
      = ((transitTo trafficType throwingCbMachine "Green" []).1,
         (transitTo trafficType throwingCbMachine "Green" []).2.1,
         Outcome.threwCallback) ∧
    ((transitTo trafficType throwingCbMachine "Green" []).1.transitioning = true ∧
     ∀ t2 args2,
       transitTo trafficType (transitTo trafficType throwingCbMachine "Green" []).1 t2 args2
         = ((transitTo trafficType throwingCbMachine "Green" []).1, [],
            Outcome.threwRecursive)) :=
  ⟨by decide,
   C10_callback_exception_wedges trafficType throwingCbMachine
     (transitTo trafficType throwingCbMachine "Green" []).1 "Green" []
     (transitTo trafficType throwingCbMachine "Green" []).2.1 (by decide)⟩

end TStateMachine
